import Mathlib

/-!
Verification of the MDMS data QA report engine (src/QA_report.py).

The Python program manipulates pandas DataFrames.  The shallow embedding
below models a DataFrame as an ordered list of column names together with
an ordered list of rows; a cell value is a rational number, a string, a
date (days since an arbitrary epoch, standing in for datetime64) or
null (NaN).  Machine floats are
modelled by rationals; all claims under verification only involve exact
decimal constants and comparisons, where float and rational arithmetic
agree.  Exceptions raised by the Python code (KeyError, NameError,
Exception) are modelled with `Except PyError`.  `print` diagnostics are
not modelled: a code path that only prints and continues is a no-op here.
-/

set_option maxRecDepth 2000

namespace QAReport

attribute [local semireducible] Rat.add Rat.sub Rat.mul Rat.inv Rat.ofScientific

/-- A cell value.  `num` covers the int64/float64 dtypes, `date` the
datetime64 dtype (as a day count), `null` is NaN/None.  The `unique`
aggregation (which produces an array cell, post-processed into a string
at src/QA_report.py lines 508-513) is not involved in any claim and is
not modelled. -/
inductive Value where
  | num (q : ℚ)
  | str (s : String)
  | date (d : ℤ)
  | null
deriving DecidableEq, Repr

/-- Exceptions of the Python runtime that the embedded code can raise. -/
inductive PyError where
  | keyError (s : String)
  | nameError (s : String)
  | exception (s : String)
deriving DecidableEq, Repr

/-- One row of a DataFrame: an association list from column name to value.
A column listed in the frame but absent from a row reads as null. -/
structure Row where
  entries : List (String × Value)
deriving DecidableEq, Repr

def Row.get (r : Row) (c : String) : Value :=
  (r.entries.lookup c).getD .null

/-- Set (or append) one entry of a row, keeping entry order. -/
def Row.set (r : Row) (c : String) (v : Value) : Row :=
  if (r.entries.lookup c).isSome then
    ⟨r.entries.map fun p => if p.1 = c then (c, v) else p⟩
  else
    ⟨r.entries ++ [(c, v)]⟩

/-- A pandas DataFrame: ordered column names and ordered rows. -/
structure DataFrame where
  cols : List String
  rows : List Row
deriving DecidableEq, Repr

/-- The values of one column, top to bottom (the column is assumed to be
listed in `cols`; a missing entry in a row reads as null). -/
def getColD (df : DataFrame) (c : String) : List Value :=
  df.rows.map (·.get c)

/-- `df[mask]`: keep the rows satisfying a predicate (boolean indexing;
in pandas this always materialises a new frame). -/
def filterRows (df : DataFrame) (p : Row → Bool) : DataFrame :=
  { cols := df.cols, rows := df.rows.filter p }

/-- `df[c] = vals`: overwrite a column in place, or append it as the last
column when it does not exist yet (pandas column assignment). -/
def DataFrame.setCol (df : DataFrame) (c : String) (vs : List Value) : DataFrame :=
  { cols := if df.cols.contains c then df.cols else df.cols ++ [c],
    rows := List.zipWith (fun r v => r.set c v) df.rows vs }

/-- Does the first character list start with the second? (Structural
replacement for the core String primitives, which are defined by
well-founded recursion on byte positions and do not reduce in proofs.) -/
def charsStartWith : List Char → List Char → Bool
  | _, [] => true
  | [], _ :: _ => false
  | a :: as, b :: bs => a == b && charsStartWith as bs

def charsContain : List Char → List Char → Bool
  | [], needle => needle.isEmpty
  | h :: t, needle => charsStartWith (h :: t) needle || charsContain t needle

/-- Python `needle in haystack` on strings (substring test). -/
def strContains (haystack needle : String) : Bool :=
  charsContain haystack.data needle.data

/-- ASCII lower-casing (all column names and sentinels in the program
are ASCII, where Python `str.lower` agrees). -/
def charLower (c : Char) : Char :=
  if 'A' ≤ c && c ≤ 'Z' then Char.ofNat (c.toNat + 32) else c

def strLower (s : String) : String :=
  ⟨s.data.map charLower⟩

/-- Python `s.endswith(t)`. -/
def strEndsWith (s t : String) : Bool :=
  charsStartWith s.data.reverse t.data.reverse

/-- Lexicographic order on character lists by code point (how Python
and pandas compare strings). -/
def charsLt : List Char → List Char → Bool
  | _, [] => false
  | [], _ :: _ => true
  | a :: as, b :: bs =>
    a.toNat < b.toNat || (a.toNat == b.toNat && charsLt as bs)

def strLtB (a b : String) : Bool := charsLt a.data b.data

def strLeB (a b : String) : Bool := strLtB a b || a == b

/-- Elementwise pandas equality: NaN compares unequal to everything,
including itself; values of different dtypes compare unequal. -/
def pdEq : Value → Value → Bool
  | .null, _ => false
  | _, .null => false
  | a, b => a == b

/-- Elementwise pandas `<`: comparisons against NaN are false; only
same-dtype values are ordered (a mixed comparison would raise in pandas
and never occurs in the inputs under verification). -/
def pdLt : Value → Value → Bool
  | .num a, .num b => a < b
  | .str a, .str b => strLtB a b
  | .date a, .date b => a < b
  | _, _ => false

/-- A total order on values used for group-key sorting (pandas sorts the
group keys; keys are homogeneous in every configuration, so the
cross-dtype ordering chosen here is never exercised). -/
def Value.leB : Value → Value → Bool
  | .null, _ => true
  | _, .null => false
  | .num a, .num b => a ≤ b
  | .num _, _ => true
  | _, .num _ => false
  | .date a, .date b => a ≤ b
  | .date _, _ => true
  | _, .date _ => false
  | .str a, .str b => strLeB a b

/-- Lexicographic order on group-key tuples. -/
def keyLe : List Value → List Value → Bool
  | [], _ => true
  | _ :: _, [] => false
  | a :: as, b :: bs => if a = b then keyLe as bs else a.leB b

/-! ### Row Filter (`filter_df`, src/QA_report.py lines 139-183)

The Python function iterates over the filter mapping.  Its control flow
is reproduced exactly, including the mis-indented `elif`: an
operator-dictionary condition is only examined when the named column is
NOT in the frame (where evaluating any supported operator accesses the
missing column and raises KeyError), while on a present column a
dictionary condition falls through both string-sentinel tests and does
nothing.  The `for`/`else` at the end of the function references the
loop variable, so an empty filter mapping raises NameError. -/

inductive FilterVal where
  | scalar (v : Value)
  | coll (vs : List Value)
deriving DecidableEq, Repr

inductive FilterCond where
  | strCond (s : String)
  | dictCond (ops : List (String × FilterVal))
  | otherCond
deriving DecidableEq, Repr

abbrev FilterSpec := List (String × FilterCond)

/-- True when evaluating the operator term would touch `df[filter_col]`
(every supported operator does; `in`/`not in` only with a collection). -/
def opSupported : String × FilterVal → Bool
  | (op, v) =>
    ["<", ">", "==", "!="].contains op ||
      ((op = "in" || op = "not in") &&
        match v with | .coll _ => true | .scalar _ => false)

/-- One iteration of the loop in `filter_df`.  The boolean in the state
records whether a filtering assignment has executed, i.e. whether the
current frame is a fresh object rather than the caller's frame. -/
def filterStep (fcol : String) (cond : FilterCond) (st : DataFrame × Bool) :
    Except PyError (DataFrame × Bool) :=
  let (df, fresh) := st
  if df.cols.contains fcol then
    match cond with
    | .strCond s =>
      if strLower s = "is not null" then
        .ok (filterRows df fun r => !(r.get fcol == .null), true)
      else if strLower s = "is null" then
        .ok (filterRows df fun r => r.get fcol == .null, true)
      else
        .ok (df, fresh)
    | _ => .ok (df, fresh)
  else
    match cond with
    | .dictCond ops =>
      if ops.any opSupported then .error (.keyError fcol) else .ok (df, fresh)
    | _ => .ok (df, fresh)

def filter_df (filter : FilterSpec) (df : DataFrame) :
    Except PyError (DataFrame × Bool) := do
  let st ← filter.foldlM (fun st term => filterStep term.1 term.2 st) (df, false)
  match filter with
  | [] => .error (.nameError "filter_col")
  | _ :: _ => .ok st

/-! ### Table Joiner (`join_tables_generic`, src/QA_report.py lines 92-136)

`pd.merge(left, right, on, how)` is modelled with exact key matching
(pandas matches NaN keys to NaN keys in a merge), `_x`/`_y` suffixes on
overlapping non-key columns, and null filling for unmatched rows of an
outer side. -/

inductive How where
  | inner | left | right | outer
deriving DecidableEq, Repr

structure JoinSpec where
  right : String
  onCols : List String
  how : How
deriving DecidableEq, Repr

abbrev TableMap := List (String × DataFrame)

/-- Column names of the left frame after merging (overlapping non-key
columns get the `_x` suffix). -/
def mergeLeftCols (lcols rcols onCols : List String) : List String :=
  lcols.map fun c => if !(onCols.contains c) && rcols.contains c then c ++ "_x" else c

/-- Column names contributed by the right frame after merging (key
columns dropped, overlapping columns get the `_y` suffix). -/
def mergeRightCols (lcols rcols onCols : List String) : List String :=
  (rcols.filter fun c => !(onCols.contains c)).map
    fun c => if lcols.contains c then c ++ "_y" else c

/-- The merged row built from one left row and one right row. -/
def mergeRow (lcols rcols onCols : List String) (lr rr : Row) : Row :=
  ⟨(mergeLeftCols lcols rcols onCols).zip (lcols.map lr.get) ++
    (mergeRightCols lcols rcols onCols).zip ((rcols.filter fun c => !(onCols.contains c)).map rr.get)⟩

/-- The all-null row used to pad the unmatched side of a left/right/outer
merge (reading any column of it yields null). -/
def nullRow : Row := ⟨[]⟩

def rowsMatch (onCols : List String) (lr rr : Row) : Bool :=
  onCols.all fun c => lr.get c == rr.get c

def merge (left right : DataFrame) (onCols : List String) (how : How) : DataFrame :=
  let lc := left.cols
  let rc := right.cols
  let innerOf (lrows : List Row) : List Row :=
    lrows.flatMap fun lr => (right.rows.filter (rowsMatch onCols lr)).map (mergeRow lc rc onCols lr)
  let leftOf : List Row :=
    left.rows.flatMap fun lr =>
      match right.rows.filter (rowsMatch onCols lr) with
      | [] => [mergeRow lc rc onCols lr nullRow]
      | ms => ms.map (mergeRow lc rc onCols lr)
  let rightUnmatched : List Row :=
    (right.rows.filter fun rr => !(left.rows.any fun lr => rowsMatch onCols lr rr)).map
      (mergeRow lc rc onCols nullRow)
  { cols := mergeLeftCols lc rc onCols ++ mergeRightCols lc rc onCols,
    rows :=
      match how with
      | .inner => innerOf left.rows
      | .left => leftOf
      | .right =>
        right.rows.flatMap fun rr =>
          match left.rows.filter (fun lr => rowsMatch onCols lr rr) with
          | [] => [mergeRow lc rc onCols nullRow rr]
          | ms => ms.map fun lr => mergeRow lc rc onCols lr rr
      | .outer => leftOf ++ rightUnmatched }

/-- `joined_dfs[name] = df`: overwrite in place or append (dict update). -/
def replaceOrAppend (m : TableMap) (name : String) (df : DataFrame) : TableMap :=
  if (m.lookup name).isSome then
    m.map fun p => if p.1 = name then (name, df) else p
  else
    m ++ [(name, df)]

/-- The loop of `join_tables_generic` that fills `joined_dfs`: resolve
each side of a spec against the already-joined versions first, skipping
a spec whose left or right table is unknown. -/
def joinPass (dfs : TableMap) (joins : List (String × JoinSpec)) : TableMap :=
  joins.foldl
    (fun joined spec =>
      let (leftName, info) := spec
      match dfs.lookup leftName, dfs.lookup info.right with
      | some l0, some r0 =>
        let l := (joined.lookup leftName).getD l0
        let r := (joined.lookup info.right).getD r0
        replaceOrAppend joined leftName (merge l r info.onCols info.how)
      | _, _ => joined)
    []

def join_tables_generic (dfs : TableMap) (joins : List (String × JoinSpec)) : TableMap :=
  let joined := joinPass dfs joins
  joined ++ dfs.filter fun p => (joined.lookup p.1).isNone

/-! ### Group Aggregator (src/QA_report.py lines 417-513)

`df.groupby(group_by_cols).agg(summary_funcs).reset_index()` with the
subsequent column-name flattening.  Pandas sorts group keys; keys
containing NaN never occur because grouping columns are filled with the
"Missing" placeholder first. -/

inductive AggFunc where
  | count | nunique | sum | min | max | mean | first
deriving DecidableEq, Repr

def AggFunc.pyName : AggFunc → String
  | .count => "count"
  | .nunique => "nunique"
  | .sum => "sum"
  | .min => "min"
  | .max => "max"
  | .mean => "mean"
  | .first => "first"

/-- The display name used in flattened column titles: `count` renders as
`records`, everything else keeps its name. -/
def displayFunc (f : AggFunc) : String :=
  if f = .count then "records" else f.pyName

/-- The `summary` entry for one column: a single function (a string in
the config) or a list of functions. -/
inductive FuncSpec where
  | single (f : AggFunc)
  | multi (fs : List AggFunc)
deriving DecidableEq, Repr

def FuncSpec.toList : FuncSpec → List AggFunc
  | .single f => [f]
  | .multi fs => fs

/-- Python `"sum" in summary_funcs[col]`: substring test on a string
spec, membership on a list spec. -/
def FuncSpec.containsPy : FuncSpec → String → Bool
  | .single f, s => strContains f.pyName s
  | .multi fs, s => fs.any fun f => f.pyName = s

structure SummaryConfig where
  table : String
  group_by : List String
  summary : List (String × FuncSpec)
  filter : Option FilterSpec := none
  sum_columns : Option (List String) := none
  new_column_name : Option String := none
deriving DecidableEq, Repr

def Value.toNum : Value → Option ℚ
  | .num q => some q
  | _ => none

/-- Numeric value with NaN skipped as 0 (the `skipna` behaviour of the
pandas `sum`; non-numeric values never reach a summed column in the
configurations under verification). -/
def Value.toNumD : Value → ℚ
  | .num q => q
  | _ => 0

/-- pandas `Series.quantile(q)` with the default linear interpolation:
sort the non-null values, take position `q*(n-1)` and interpolate
between the neighbouring order statistics; `none` when there is no
value (pandas returns NaN there). -/
def linQuantile (q : ℚ) (vs : List ℚ) : Option ℚ :=
  match vs.insertionSort (· ≤ ·) with
  | [] => none
  | x :: xs =>
    let s := x :: xs
    let n := s.length
    let p : ℚ := q * ((n : ℚ) - 1)
    let i : ℕ := p.floor.toNat
    let frac : ℚ := p - (i : ℚ)
    let lo := s.getD i 0
    let hi := s.getD (i + 1) lo
    some (lo + frac * (hi - lo))

/-- One aggregation function applied to the values of one column within
one group, with the pandas NaN-skipping semantics. -/
def applyAgg : AggFunc → List Value → Value
  | .count, vs => .num ((vs.filter fun v => !(v == .null)).length)
  | .nunique, vs => .num ((vs.filter fun v => !(v == .null)).dedup.length)
  | .sum, vs => .num (vs.foldl (fun a v => a + v.toNumD) 0)
  | .min, vs =>
    match vs.filter fun v => !(v == .null) with
    | [] => .null
    | x :: xs => xs.foldl (fun a b => if b.leB a then b else a) x
  | .max, vs =>
    match vs.filter fun v => !(v == .null) with
    | [] => .null
    | x :: xs => xs.foldl (fun a b => if a.leB b then b else a) x
  | .mean, vs =>
    let ns := vs.filterMap Value.toNum
    if ns.length = 0 then .null else .num (ns.sum / (ns.length : ℚ))
  | .first, vs => ((vs.filter fun v => !(v == .null)).headD .null)

/-- The distinct group keys in pandas order (sorted ascending). -/
def groupKeys (df : DataFrame) (gcols : List String) : List (List Value) :=
  ((df.rows.map fun r => gcols.map r.get).dedup).insertionSort
    fun a b => keyLe a b = true

/-- Flattened output column name for one `(column, function)` pair.
When any spec is a list the agg result carries a MultiIndex and every
aggregated column is suffixed; in the flat case every function except
`first` is suffixed (lines 485-506). -/
def flatName (multiIdx : Bool) (c : String) (f : AggFunc) : String :=
  if !multiIdx && f = .first then c else c ++ "\n" ++ displayFunc f

def hasMultiSpec (funcs : List (String × FuncSpec)) : Bool :=
  funcs.any fun p => match p.2 with | .multi _ => true | .single _ => false

/-- `df.groupby(gcols).agg(funcs).reset_index()` followed by the column
flattening; raises KeyError when a grouping or aggregated column is
missing from the frame. -/
def aggregate (df : DataFrame) (gcols : List String)
    (funcs : List (String × FuncSpec)) : Except PyError DataFrame :=
  match (gcols ++ funcs.map (·.1)).filter (fun c => !(df.cols.contains c)) with
  | [] =>
    let m := hasMultiSpec funcs
    let aggCols := funcs.flatMap fun p => p.2.toList.map fun f => (p.1, f)
    .ok { cols := gcols ++ aggCols.map fun p => flatName m p.1 p.2,
          rows := (groupKeys df gcols).map fun k =>
            let sub := df.rows.filter fun r => (gcols.map r.get) == k
            ⟨gcols.zip k ++ aggCols.map fun p =>
              (flatName m p.1 p.2, applyAgg p.2 (sub.map (·.get p.1)))⟩ }
  | missing => .error (.keyError (String.intercalate ", " missing))

/-- The high-cardinality remediation (lines 456-476): with more than 50
groups, a `SamplingUnitID` grouping column and both replacement columns
present, regroup by the coarser pair and widen every summary function
that is exactly the string `"sum"` into the list `["min", "max"]`. -/
def remediate (numGroups : ℕ) (groupCols dfCols : List String)
    (funcs : List (String × FuncSpec)) : List String × List (String × FuncSpec) :=
  if numGroups > 50 && groupCols.contains "SamplingUnitID" &&
      dfCols.contains "SamplePointName" && dfCols.contains "TransectID" then
    (groupCols.filter (fun c => !(c = "SamplingUnitID")) ++
      ["SamplePointName", "TransectID"],
     funcs.map fun p =>
      (p.1, if p.2 = .single .sum then FuncSpec.multi [.min, .max] else p.2))
  else
    (groupCols, funcs)

/-! ### QA Rule Engine (src/QA_report.py lines 515-651)

Column dtypes are not tracked separately: a column counts as numeric
when every cell is a number or null (pandas object columns holding
strings are not numeric), and as integer-typed when it is non-empty,
null-free and every cell is an integer (an int64 column can hold no
NaN).  For the columns the checks are applied to (count/nunique/sum of
integer data) this coincides with the pandas dtypes. -/

def isNumericCol (vs : List Value) : Bool :=
  vs.all fun v => match v with | .num _ => true | .null => true | _ => false

def isIntegerCol (vs : List Value) : Bool :=
  !vs.isEmpty && vs.all fun v => match v with | .num q => q.den = 1 | _ => false

/-- Nearest integer, ties to even (the rounding of Python fixed-point
formatting). -/
def roundHalfEven (x : ℚ) : ℤ :=
  let f := ⌊x⌋
  let r := x - (f : ℚ)
  if r < 1 / 2 then f
  else if 1 / 2 < r then f + 1
  else if f % 2 = 0 then f else f + 1

/-- Python `f"{x:.kf}"` on an exactly-representable value. -/
def fmtFixed (k : ℕ) (x : ℚ) : String :=
  let s := roundHalfEven (x * (10 : ℚ) ^ k)
  let a := s.natAbs
  let ip := a / 10 ^ k
  let fp := a % 10 ^ k
  let fpStr := toString fp
  let pad := String.mk (List.replicate (k - fpStr.length) '0') ++ fpStr
  (if s < 0 then "-" else "") ++ toString ip ++ "." ++ pad

/-- The combined effect of initialising a QA column to `""` and the
subsequent `.loc` mask assignments: every row receives the value of a
per-row function of the existing columns. -/
def withQACol (df : DataFrame) (name : String) (f : Row → Value) : DataFrame :=
  df.setCol name (df.rows.map f)

/-- `col_map` construction (lines 522-530): map each requested function
to the flattened column holding its result, falling back to the bare
column name when only that exists (the single-`first` case). -/
def buildColMap (df : DataFrame) (col : String) (spec : FuncSpec) :
    List (String × String) :=
  spec.toList.foldl
    (fun acc f =>
      let target := col ++ "\n" ++ displayFunc f
      if df.cols.contains target then acc ++ [(f.pyName, target)]
      else if df.cols.contains col then acc ++ [(f.pyName, col)]
      else acc)
    []

/-- Lines 538-541: recover the function name from the flattened column
name by substring search, in the order sum, max, min. -/
def firstSubFunc (funcMapName : String) : Option String :=
  if strContains funcMapName "sum" then some "sum"
  else if strContains funcMapName "max" then some "max"
  else if strContains funcMapName "min" then some "min"
  else none

/-- The per-row verdict of the percent-cover range check, reproducing
the `.loc` assignment order of lines 544-555 (checkmark, then `> 101%`,
then `missing`, then `negative`; the regions are disjoint, so the order
only matters in that later assignments win). -/
def coverVerdict (col func0 funcNeg : String) : Value → Value
  | .num q =>
    if q < 0 then .str (col ++ "_" ++ funcNeg ++ " negative")
    else if q ≤ 101 then .str "✓"
    else .str (col ++ "_" ++ func0 ++ " > 101%")
  | .null => .str (col ++ "_" ++ func0 ++ " missing")
  | _ => .str ""

/-- Percent-cover range check (lines 535-555).  Triggered by the first
of the sum/max/min columns when the original column name ends with
"cover" case-insensitively.  The Python loop extracting the function
name would leave the variable unbound if no substring matched; that
(unreachable) path is modelled as a NameError. -/
def coverCheck (col : String) (colMap : List (String × String))
    (df : DataFrame) : Except PyError DataFrame :=
  match ((colMap.lookup "sum").orElse fun _ =>
      (colMap.lookup "max").orElse fun _ => colMap.lookup "min") with
  | none => .ok df
  | some fm =>
    if strEndsWith (strLower col) "cover" then
      match firstSubFunc fm with
      | none => .error (.nameError "func")
      | some func0 =>
        let funcNeg :=
          if func0 = "max" && (colMap.lookup "min").isSome then "min" else func0
        .ok (withQACol df "QA Check\nrange check\n0-100% +1"
          fun r => coverVerdict col func0 funcNeg (r.get fm))
    else .ok df

/-- Count-vs-nunique equality check (lines 557-566). -/
def equalityCheck (colMap : List (String × String)) (df : DataFrame) : DataFrame :=
  match colMap.lookup "count", colMap.lookup "nunique" with
  | some cfm, some nfm =>
    if isNumericCol (getColD df cfm) then
      withQACol df "QA Check\nequality\nunique = count"
        fun r => if pdEq (r.get cfm) (r.get nfm) then .str "✓" else .str "mismatched"
    else df
  | _, _ => df

/-- Max-positivity check (lines 569-579); skipped for cover columns.
A negative maximum matches no `.loc` mask and keeps the empty verdict. -/
def maxCheck (col : String) (colMap : List (String × String))
    (df : DataFrame) : DataFrame :=
  match colMap.lookup "max" with
  | some fm =>
    if !(strEndsWith (strLower col) "cover") && isNumericCol (getColD df fm) then
      withQACol df "QA Check\nmax > 0" fun r =>
        match r.get fm with
        | .num q =>
          if q = 0 then .str (fm ++ " is 0")
          else if 0 < q then .str "✓"
          else .str ""
        | .null => .str "missing"
        | _ => .str ""
    else df
  | none => df

/-- The per-row verdict of the IQR outlier check (lines 643-651):
high above the upper bound, low below the lower bound, checkmark in
between; a null matches no mask and keeps the empty verdict. -/
def outlierVerdict (lo hi : ℚ) (label : String) : Value → Value
  | .num q =>
    if hi < q then .str ("high " ++ label)
    else if q < lo then .str ("low " ++ label)
    else .str "✓"
  | _ => .str ""

/-- The body of `qa_outliers` once the checked column is resolved. -/
def qaOutliersOn (func col : String) (df : DataFrame) (fm : String) :
    Except PyError DataFrame :=
  if df.cols.contains fm then
    let nums := (getColD df fm).filterMap Value.toNum
    match linQuantile (1 / 4) nums, linQuantile (3 / 4) nums with
    | some q1, some q3 =>
      let iqr := q3 - q1
      let lo := q1 - 3 / 2 * iqr
      let hi := q3 + 3 / 2 * iqr
      let fd := if func = "count" then "records" else func
      let k := if isIntegerCol (getColD df fm) then 1 else 2
      let name := "QA Check\n" ++ col ++ "_" ++ fd ++ "\noutliers IQR\n[" ++
        fmtFixed k lo ++ ", " ++ fmtFixed k hi ++ "]"
      .ok (withQACol df name fun r =>
        outlierVerdict lo hi (col ++ "_" ++ fd) (r.get fm))
    | _, _ => .ok df
  else .error (.keyError fm)

/-- `qa_outliers` (lines 627-651): quantiles over all rows of the
summary, bounds at 1.5 IQR, verdicts per row; the whole check is
skipped when the IQR is NaN (no non-null value). -/
def qa_outliers (func col : String) (df : DataFrame)
    (colMap : List (String × String)) : Except PyError DataFrame :=
  match colMap.lookup func with
  | none => .error (.keyError func)
  | some fm => qaOutliersOn func col df fm

/-- Soil-moisture consistency check (lines 584-591).  The compared
column name `QuadratPlotID\ncount` never exists (counts are flattened
to `records`), so this check raises KeyError whenever triggered. -/
def soilCheck (funcs : List (String × FuncSpec)) (col : String)
    (colMap : List (String × String)) (df : DataFrame) :
    Except PyError DataFrame :=
  if strContains col "SoilMoisture" && (funcs.lookup "QuadratPlotID").isSome then
    match colMap.lookup "count" with
    | none => .error (.keyError "count")
    | some fm =>
      if df.cols.contains "QuadratPlotID\ncount" then
        .ok (withQACol df "QA Check\nSoilMoisture count\nvs QuadratPlotID count"
          fun r =>
            if pdEq (r.get fm) (r.get "QuadratPlotID\ncount") then .str "✓"
            else .str (col ++ " missing for QuadratPlotID"))
      else .error (.keyError "QuadratPlotID\ncount")
  else .ok df

/-- The two name-triggered outlier calls of lines 593-596. -/
def specialOutlierChecks (funcs : List (String × FuncSpec)) (col : String)
    (colMap : List (String × String)) (df : DataFrame) :
    Except PyError DataFrame := do
  let df ←
    if strContains col "Count" &&
        (match funcs.lookup "Count" with
          | some s => s.containsPy "sum"
          | none => false) then
      qa_outliers "sum" col df colMap
    else pure df
  if strContains col "ScientificName" &&
      (match funcs.lookup "ScientificName" with
        | some s => s.containsPy "nunique"
        | none => false) then
    qa_outliers "nunique" col df colMap
  else pure df

/-- The `"Date" in col` branch of lines 602-621 (the mode check there is
commented out in the source; only the two outlier calls remain). -/
def dateChecks (col : String) (colMap : List (String × String))
    (df : DataFrame) : Except PyError DataFrame := do
  if strContains col "Date" then do
    let df ←
      if (colMap.lookup "count").isSome then qa_outliers "count" col df colMap
      else pure df
    if (colMap.lookup "nunique").isSome then qa_outliers "nunique" col df colMap
    else pure df
  else pure df

/-- The QA annotations applied for one entry of `summary_funcs`
(the body of the loop at line 518). -/
def qaForCol (funcs : List (String × FuncSpec)) (col : String)
    (spec : FuncSpec) (df : DataFrame) : Except PyError DataFrame := do
  let colMap := buildColMap df col spec
  let df ← coverCheck col colMap df
  let df := equalityCheck colMap df
  let df := maxCheck col colMap df
  let df ← soilCheck funcs col colMap df
  let df ← specialOutlierChecks funcs col colMap df
  let df ←
    if (colMap.lookup "count").isSome then qa_outliers "count" col df colMap
    else pure df
  let df ←
    if (colMap.lookup "sum").isSome then qa_outliers "sum" col df colMap
    else pure df
  dateChecks col colMap df

/-- The full QA annotation loop over `summary_funcs.items()`. -/
def qaAnnotate (funcs : List (String × FuncSpec)) (df : DataFrame) :
    Except PyError DataFrame :=
  funcs.foldlM (fun df p => qaForCol funcs p.1 p.2 df) df

/-! ### Summarization driver (`generate_effort_summaries`,
src/QA_report.py lines 417-625)

Pandas aliasing is tracked explicitly: `df = joined_dfs[table_name]`
binds the stored frame itself, and the in-place column assignments of
lines 440 and 444 (group-column fillna, derived sum column) mutate it,
so their result is written back into the table mapping — unless
`filter_df` executed a boolean-indexing assignment, which rebinds `df`
to a fresh frame (the second component returned by `filter_df`). -/

/-- Line 440, `df[group_by_cols] = df[group_by_cols].fillna("Missing")`:
raises KeyError when a grouping column is missing from the frame,
otherwise fills nulls of the grouping columns with the placeholder. -/
def fillnaGroup (df : DataFrame) (gcols : List String) :
    Except PyError DataFrame :=
  match gcols.filter (fun c => !(df.cols.contains c)) with
  | [] =>
    .ok { cols := df.cols,
          rows := df.rows.map fun r =>
            gcols.foldl
              (fun r c => if r.get c = .null then r.set c (.str "Missing") else r)
              r }
  | missing => .error (.keyError (String.intercalate ", " missing))

/-- Lines 443-444: materialise the derived row-wise sum column when both
config keys are present. -/
def addSumCol (df : DataFrame) (cfg : SummaryConfig) : Except PyError DataFrame :=
  match cfg.sum_columns, cfg.new_column_name with
  | some scols, some newName =>
    match scols.filter (fun c => !(df.cols.contains c)) with
    | [] =>
      .ok (df.setCol newName
        (df.rows.map fun r => .num (scols.foldl (fun a c => a + (r.get c).toNumD) 0)))
    | missing => .error (.keyError (String.intercalate ", " missing))
  | _, _ => .ok df

/-- `df.groupby(gcols).ngroups`. -/
def ngroups (df : DataFrame) (gcols : List String) : ℕ :=
  (groupKeys df gcols).length

/-- Write the (mutated) frame back under its table name. -/
def replaceTable (dfs : TableMap) (name : String) (df : DataFrame) : TableMap :=
  dfs.map fun p => if p.1 = name then (name, df) else p

/-- One iteration of the summary loop for a table that was found,
returning the updated table mapping and the annotated summary frame.
The explicit missing-column check of lines 447-451 is kept although it
is unreachable: the fillna of line 440 already raised for a missing
grouping column. -/
def processSummary (dfs : TableMap) (cfg : SummaryConfig) (table : DataFrame) :
    Except PyError (TableMap × DataFrame) :=
  let step0 : Except PyError (DataFrame × Bool) :=
    match cfg.filter with
    | none => .ok (table, false)
    | some f => filter_df f table
  match step0 with
  | .error e => .error e
  | .ok (df0, fresh) =>
    match fillnaGroup df0 cfg.group_by with
    | .error e => .error e
    | .ok df1 =>
      match addSumCol df1 cfg with
      | .error e => .error e
      | .ok df2 =>
        let dfs2 := if fresh then dfs else replaceTable dfs cfg.table df2
        if (cfg.group_by.filter fun c => !(df2.cols.contains c)) ≠ [] then
          .error (.exception "missing group_by columns")
        else
          let gf := remediate (ngroups df2 cfg.group_by) cfg.group_by df2.cols cfg.summary
          match aggregate df2 gf.1 gf.2 with
          | .error e => .error e
          | .ok sdf0 =>
            match qaAnnotate gf.2 sdf0 with
            | .error e => .error e
            | .ok sdf => .ok (dfs2, sdf)

/-- `generate_effort_summaries`: process the summary definitions in
order; a missing table is skipped with a diagnostic, and any raised
failure propagates, aborting the rest of the run (there is no handler
around the loop).  The result pairs each summary name with its source
table name and annotated frame, alongside the final table mapping. -/
def generate_effort_summaries (dfs : TableMap)
    (cfgs : List (String × SummaryConfig)) :
    Except PyError (TableMap × List (String × String × DataFrame)) :=
  match cfgs with
  | [] => .ok (dfs, [])
  | (name, cfg) :: rest =>
    match dfs.lookup cfg.table with
    | none => generate_effort_summaries dfs rest
    | some table =>
      match processSummary dfs cfg table with
      | .error e => .error e
      | .ok (dfs2, sdf) =>
        match generate_effort_summaries dfs2 rest with
        | .error e => .error e
        | .ok (dfs3, results) => .ok (dfs3, (name, cfg.table, sdf) :: results)

/-! ### Concrete inputs used by the claim theorems -/

/-- A one-column table with values 1, 2, 3 (claim C1). -/
def c1df : DataFrame :=
  { cols := ["a"],
    rows := [⟨[("a", .num 1)]⟩, ⟨[("a", .num 2)]⟩, ⟨[("a", .num 3)]⟩] }

def c2table : DataFrame :=
  { cols := ["G", "x"], rows := [⟨[("G", .str "a"), ("x", .num 1)]⟩] }

def c2good : SummaryConfig :=
  { table := "T", group_by := ["G"], summary := [("x", .single .count)] }

/-- A summary definition whose grouping column H is absent from table T. -/
def c2bad : SummaryConfig :=
  { table := "T", group_by := ["H"], summary := [("x", .single .count)] }

def c3t1 : DataFrame :=
  { cols := ["G", "TotalCover"], rows := [⟨[("G", .str "g"), ("TotalCover", .num 0)]⟩] }

def c3cfg1 : SummaryConfig :=
  { table := "T", group_by := ["G"], summary := [("TotalCover", .single .max)] }

def c3t2 : DataFrame :=
  { cols := ["G", "CoverTotal"], rows := [⟨[("G", .str "g"), ("CoverTotal", .num 50)]⟩] }

def c3cfg2 : SummaryConfig :=
  { table := "T", group_by := ["G"], summary := [("CoverTotal", .single .max)] }

def c4table : DataFrame :=
  { cols := ["G", "Count"],
    rows := [⟨[("G", .str "g1"), ("Count", .num 1)]⟩,
             ⟨[("G", .str "g2"), ("Count", .num 1)]⟩,
             ⟨[("G", .str "g3"), ("Count", .num 1)]⟩,
             ⟨[("G", .str "g4"), ("Count", .num 1)]⟩,
             ⟨[("G", .str "g5"), ("Count", .num 100)]⟩] }

def c4cfg : SummaryConfig :=
  { table := "T", group_by := ["G"], summary := [("Count", .single .sum)] }

/-- An already-aggregated frame with the summary column values
[1,1,1,1,100], used to instantiate the general C4 theorem. -/
def c4wdf : DataFrame :=
  { cols := ["Count\nsum"],
    rows := [⟨[("Count\nsum", .num 1)]⟩, ⟨[("Count\nsum", .num 1)]⟩,
             ⟨[("Count\nsum", .num 1)]⟩, ⟨[("Count\nsum", .num 1)]⟩,
             ⟨[("Count\nsum", .num 100)]⟩] }

def c5t1 : DataFrame :=
  { cols := ["G", "S"],
    rows := [⟨[("G", .str "g1"), ("S", .null)]⟩,
             ⟨[("G", .str "g2"), ("S", .num 1)]⟩,
             ⟨[("G", .str "g3"), ("S", .num 1)]⟩,
             ⟨[("G", .str "g4"), ("S", .num 1)]⟩,
             ⟨[("G", .str "g5"), ("S", .num 1)]⟩] }

def c5t2 : DataFrame :=
  { cols := ["G", "S"],
    rows := [⟨[("G", .str "g1"), ("S", .null)]⟩,
             ⟨[("G", .str "g2"), ("S", .null)]⟩,
             ⟨[("G", .str "g3"), ("S", .null)]⟩,
             ⟨[("G", .str "g4"), ("S", .null)]⟩,
             ⟨[("G", .str "g5"), ("S", .null)]⟩] }

def c5cfg : SummaryConfig :=
  { table := "T", group_by := ["G"], summary := [("S", .single .count)] }

/-- Two surveys on the same group 20 days apart: max − min exceeds the
7-day threshold the claim describes. -/
def c6t : DataFrame :=
  { cols := ["G", "SampleDate"],
    rows := [⟨[("G", .str "a"), ("SampleDate", .date 0)]⟩,
             ⟨[("G", .str "a"), ("SampleDate", .date 20)]⟩] }

def c6cfg : SummaryConfig :=
  { table := "T", group_by := ["G"],
    summary := [("SampleDate", .multi [.min, .max])] }

def c6t2 : DataFrame :=
  { cols := ["G", "SampleDate"],
    rows := [⟨[("G", .str "a"), ("SampleDate", .date 0)]⟩,
             ⟨[("G", .str "a"), ("SampleDate", .date 20)]⟩,
             ⟨[("G", .str "b"), ("SampleDate", .date 5)]⟩,
             ⟨[("G", .str "b"), ("SampleDate", .null)]⟩] }

def c6cfg2 : SummaryConfig :=
  { table := "T", group_by := ["G"],
    summary := [("SampleDate", .multi [.count, .nunique, .min, .max])] }

def c8A : DataFrame :=
  { cols := ["k", "acol"], rows := [⟨[("k", .num 1), ("acol", .num 10)]⟩] }

def c8B : DataFrame :=
  { cols := ["k", "k2", "bcol"],
    rows := [⟨[("k", .num 1), ("k2", .num 2), ("bcol", .num 20)]⟩] }

def c8C : DataFrame :=
  { cols := ["k2", "ccol"], rows := [⟨[("k2", .num 2), ("ccol", .num 30)]⟩] }

def c8dfs : TableMap := [("A", c8A), ("B", c8B), ("C", c8C)]

/-- Spec mapping: first enrich B with A, then enrich C with B. -/
def c8joins : List (String × JoinSpec) :=
  [("B", { right := "A", onCols := ["k"], how := .left }),
   ("C", { right := "B", onCols := ["k2"], how := .left })]

def c9table : DataFrame :=
  { cols := ["G", "a", "b"],
    rows := [⟨[("G", .null), ("a", .num 1), ("b", .num 2)]⟩] }

def c9cfg : SummaryConfig :=
  { table := "T", group_by := ["G"], summary := [("a", .single .count)],
    sum_columns := some ["a", "b"], new_column_name := some "ab" }

def c10ta : DataFrame :=
  { cols := ["G", "Acover", "Bcover"],
    rows := [⟨[("G", .str "g"), ("Acover", .num 102), ("Bcover", .num 50)]⟩] }

def c10cfga : SummaryConfig :=
  { table := "T", group_by := ["G"],
    summary := [("Acover", .single .max), ("Bcover", .single .max)] }

def c10tb : DataFrame :=
  { cols := ["G", "P", "Q"],
    rows := [⟨[("G", .str "g"), ("P", .num 1), ("Q", .num 1)]⟩,
             ⟨[("G", .str "g"), ("P", .num 1), ("Q", .num 2)]⟩] }

def c10cfgb : SummaryConfig :=
  { table := "T", group_by := ["G"],
    summary := [("P", .multi [.count, .nunique]), ("Q", .multi [.count, .nunique])] }

def c10tc : DataFrame :=
  { cols := ["G", "M", "N"],
    rows := [⟨[("G", .str "g"), ("M", .num 0), ("N", .num 5)]⟩] }

def c10cfgc : SummaryConfig :=
  { table := "T", group_by := ["G"],
    summary := [("M", .single .max), ("N", .single .max)] }

/-! ## Helper lemmas -/

deriving instance DecidableEq for Except

theorem lookup_append_of_isSome {β : Type} (l₁ l₂ : List (String × β)) (k : String)
    (h : (l₁.lookup k).isSome = true) : (l₁ ++ l₂).lookup k = l₁.lookup k := by
  induction l₁ with
  | nil => simp at h
  | cons a t ih =>
    obtain ⟨a1, a2⟩ := a
    cases hk : k == a1 with
    | true => simp [List.lookup, hk]
    | false =>
      simp only [List.lookup, hk] at h
      simp only [List.cons_append, List.lookup, hk]
      exact ih h

theorem lookup_append_of_none {β : Type} (l₁ l₂ : List (String × β)) (k : String)
    (h : l₁.lookup k = none) : (l₁ ++ l₂).lookup k = l₂.lookup k := by
  induction l₁ with
  | nil => rw [List.nil_append]
  | cons a t ih =>
    obtain ⟨a1, a2⟩ := a
    cases hk : k == a1 with
    | true => simp [List.lookup, hk] at h
    | false =>
      simp only [List.lookup, hk] at h
      simp only [List.cons_append, List.lookup, hk]
      exact ih h

/-- Looking a key up in an association list filtered by a predicate on
keys gives the unfiltered result when the key satisfies the predicate. -/
theorem lookup_filter_key {β : Type} (l : List (String × β)) (f : String → Bool)
    (k : String) (hf : f k = true) :
    (l.filter fun p => f p.1).lookup k = l.lookup k := by
  induction l with
  | nil => simp
  | cons a t ih =>
    obtain ⟨a1, a2⟩ := a
    cases hk : k == a1 with
    | true =>
      have hka : k = a1 := by simpa using hk
      subst hka
      simp [List.filter_cons, hf, List.lookup]
    | false =>
      cases hfa : f a1 with
      | true =>
        simp only [List.filter_cons, hfa, if_true, List.lookup, hk]
        exact ih
      | false =>
        simp only [List.filter_cons, hfa, if_false, Bool.false_eq_true]
        rw [ih]
        simp [List.lookup, hk]

/-- `processSummary` raises when a grouping column is missing: the
fillna of line 440 accesses the missing column first. -/
theorem processSummary_missing_col (dfs : TableMap) (cfg : SummaryConfig)
    (table : DataFrame) (h2 : cfg.filter = none)
    (h3 : (cfg.group_by.filter fun c => !(table.cols.contains c)) ≠ []) :
    processSummary dfs cfg table =
      .error (.keyError (String.intercalate ", "
        (cfg.group_by.filter fun c => !(table.cols.contains c)))) := by
  cases hm : cfg.group_by.filter fun c => !(table.cols.contains c) with
  | nil => exact absurd hm h3
  | cons m ms => simp only [processSummary, h2, fillnaGroup, hm]

/-- A raised failure in the head summary aborts the whole call: nothing
is returned for the remaining summary definitions either. -/
theorem generate_error_head (dfs : TableMap) (name : String)
    (cfg : SummaryConfig) (rest : List (String × SummaryConfig))
    (table : DataFrame) (e : PyError)
    (hl : dfs.lookup cfg.table = some table)
    (hp : processSummary dfs cfg table = .error e) :
    generate_effort_summaries dfs ((name, cfg) :: rest) = .error e := by
  simp only [generate_effort_summaries, hl, hp]

/-! ## Claim C1 -/

/-- Claim C1 states that the Row Filter applies the comparison and
membership operators to a present column and skips, with a warning,
any term whose column is absent, never raising.  The code disagrees: a
mis-indented `elif` means an operator-dictionary term on a PRESENT
column is silently ignored (first conjunct: the `<` filter returns the
table unchanged), the same term on an ABSENT column raises KeyError
(second conjunct), and an empty filter raises NameError from the
`for`/`else` (third conjunct); only the null sentinels behave as
specified (fourth conjunct). -/
theorem c1_filter_behaviour :
    filter_df [("a", .dictCond [("<", .scalar (.num 2))])] c1df =
      .ok (c1df, false) ∧
    filter_df [("b", .dictCond [("<", .scalar (.num 2))])] c1df =
      .error (.keyError "b") ∧
    filter_df [] c1df = .error (.nameError "filter_col") ∧
    filter_df [("a", .strCond "is not null")] c1df = .ok (c1df, true) := by
  refine ⟨by decide, by decide, by decide, by decide⟩

/-! ## Claim C2 -/

/-- Claim C2 counterexample: a run with a healthy first summary and a
second summary whose grouping column H is missing from its table
returns an error and produces no summary table at all — the first
summary does not survive, contradicting the claim that every other
SummaryDef still produces its SummaryTable. -/
theorem c2_counterexample :
    generate_effort_summaries [("T", c2table)] [("s1", c2good), ("s2", c2bad)] =
      .error (.keyError "H") := by decide

/-- Claim C2 as amended: a SummaryDef whose group-by list names a
column absent from its (unfiltered) table raises a failure that
propagates out of `generate_effort_summaries`, aborting the entire run
— no summary table is returned for any SummaryDef, rather than only
that one summary being dropped. -/
theorem c2_failure_aborts_run :
    ∀ (dfs : TableMap) (name : String) (cfg : SummaryConfig)
      (rest : List (String × SummaryConfig)) (table : DataFrame),
      dfs.lookup cfg.table = some table →
      cfg.filter = none →
      (cfg.group_by.filter fun c => !(table.cols.contains c)) ≠ [] →
      ∃ e, generate_effort_summaries dfs ((name, cfg) :: rest) = .error e := by
  intro dfs name cfg rest table h1 h2 h3
  exact ⟨_, generate_error_head dfs name cfg rest table _ h1
    (processSummary_missing_col dfs cfg table h2 h3)⟩

/-- Witness for the amended C2 theorem at a concrete input. -/
theorem c2_witness :
    ∃ e, generate_effort_summaries [("T", c2table)] [("s2", c2bad)] =
      .error e :=
  c2_failure_aborts_run [("T", c2table)] "s2" c2bad [] c2table
    (by decide) rfl (by decide)

/-! ## Claim C7 -/

/-- Claim C7: when the distinct-group count exceeds 50, the group-by
list contains SamplingUnitID and the table has both SamplePointName and
TransectID columns, the engine regroups with SamplingUnitID replaced by
that pair (appended after the remaining group-by columns) and every
column whose declared summary function is exactly `"sum"` is widened to
`[min, max]`; all other declared functions are left unchanged. -/
theorem c7_high_cardinality :
    ∀ (n : ℕ) (groupCols dfCols : List String)
      (funcs : List (String × FuncSpec)),
      n > 50 →
      groupCols.contains "SamplingUnitID" = true →
      dfCols.contains "SamplePointName" = true →
      dfCols.contains "TransectID" = true →
      remediate n groupCols dfCols funcs =
        (groupCols.filter (fun c => !(c = "SamplingUnitID")) ++
          ["SamplePointName", "TransectID"],
         funcs.map fun p =>
          (p.1, if p.2 = .single .sum then FuncSpec.multi [.min, .max] else p.2)) := by
  intro n groupCols dfCols funcs h1 h2 h3 h4
  have hc2 : "SamplingUnitID" ∈ groupCols := by simpa using h2
  have hc3 : "SamplePointName" ∈ dfCols := by simpa using h3
  have hc4 : "TransectID" ∈ dfCols := by simpa using h4
  simp [remediate, h1, hc2, hc3, hc4]

/-- Witness for C7 at a concrete input: 51 groups, declared functions
one exact `"sum"` and one `count`. -/
theorem c7_witness :
    remediate 51 ["Year", "SamplingUnitID"] ["SamplePointName", "TransectID"]
      [("c", .single .sum), ("d", .single .count)] =
      (["Year", "SamplePointName", "TransectID"],
       [("c", .multi [.min, .max]), ("d", .single .count)]) := by
  have h := c7_high_cardinality 51 ["Year", "SamplingUnitID"]
    ["SamplePointName", "TransectID"] [("c", .single .sum), ("d", .single .count)]
    (by decide) (by decide) (by decide) (by decide)
  exact h

/-! ## Claim C3 -/

/-- The annotated summary the engine produces for `c3t1`/`c3cfg1`. -/
def c3out1 : DataFrame :=
  { cols := ["G", "TotalCover\nmax", "QA Check\nrange check\n0-100% +1"],
    rows := [⟨[("G", .str "g"), ("TotalCover\nmax", .num 0),
               ("QA Check\nrange check\n0-100% +1", .str "✓")]⟩] }

/-- The annotated summary the engine produces for `c3t2`/`c3cfg2`. -/
def c3out2 : DataFrame :=
  { cols := ["G", "CoverTotal\nmax", "QA Check\nmax > 0"],
    rows := [⟨[("G", .str "g"), ("CoverTotal\nmax", .num 50),
               ("QA Check\nmax > 0", .str "✓")]⟩] }

/-- Claim C3 counterexample.  First conjunct: the column TotalCover with
function max and value 0 gets a checkmark in the range-check column, not
the claimed override verdict "TotalCover_max is 0" (the max>0 check
skips cover columns, so no such verdict exists anywhere in the output).
Second conjunct: the column CoverTotal contains "cover" but does not end
with it, so no range-check column is produced at all, against the
claimed "contains" trigger; it gets the max>0 check instead. -/
theorem c3_counterexample :
    generate_effort_summaries [("T", c3t1)] [("s", c3cfg1)] =
      .ok ([("T", c3t1)], [("s", "T", c3out1)]) ∧
    generate_effort_summaries [("T", c3t2)] [("s", c3cfg2)] =
      .ok ([("T", c3t2)], [("s", "T", c3out2)]) := by
  refine ⟨by decide, by decide⟩

/-- Claim C3 as amended: the range check applies when the original
column name ENDS WITH "cover" case-insensitively (not merely contains
it) and a sum, max or min aggregation exists; the verdict is a
checkmark for `0 ≤ v ≤ 101`, `"{col}_{func} > 101%"` for `v > 101`,
`"{col}_{func} missing"` for null, and `"{col}_{fn} negative"` for
`v < 0` where `fn` is renamed to `"min"` when the function is max and a
min aggregation also exists; there is no `"is 0"` override for cover
columns (a max cover value of 0 satisfies `0 ≤ v ≤ 101` and gets the
checkmark, and the separate max>0 check excludes cover columns). -/
theorem c3_cover_range_check :
    ∀ (df : DataFrame) (col : String) (colMap : List (String × String))
      (fm func0 : String),
      ((colMap.lookup "sum").orElse fun _ =>
        (colMap.lookup "max").orElse fun _ => colMap.lookup "min") = some fm →
      strEndsWith (strLower col) "cover" = true →
      firstSubFunc fm = some func0 →
      (coverCheck col colMap df =
        .ok (withQACol df "QA Check\nrange check\n0-100% +1"
          fun r => coverVerdict col func0
            (if func0 = "max" && (colMap.lookup "min").isSome then "min" else func0)
            (r.get fm))) ∧
      (∀ (fn : String) (q : ℚ), 0 ≤ q → q ≤ 101 →
        coverVerdict col func0 fn (.num q) = .str "✓") ∧
      (∀ (fn : String) (q : ℚ), 101 < q →
        coverVerdict col func0 fn (.num q) =
          .str (col ++ "_" ++ func0 ++ " > 101%")) ∧
      (∀ (fn : String) (q : ℚ), q < 0 →
        coverVerdict col func0 fn (.num q) =
          .str (col ++ "_" ++ fn ++ " negative")) ∧
      (∀ fn : String, coverVerdict col func0 fn .null =
        .str (col ++ "_" ++ func0 ++ " missing")) := by
  intro df col colMap fm func0 h1 h2 h3
  refine ⟨?_, ?_, ?_, ?_, ?_⟩
  · simp only [coverCheck, h1, h2, h3, if_true]
  · intro fn q hq0 hq1
    simp only [coverVerdict]
    rw [if_neg (by linarith), if_pos hq1]
  · intro fn q h
    simp only [coverVerdict]
    rw [if_neg (by linarith), if_neg (by linarith)]
  · intro fn q h
    simp only [coverVerdict]
    rw [if_pos h]
  · intro fn
    rfl

/-- An already-aggregated frame exercising every region of the cover
range check: 101 (boundary pass), 101.5 (over), −1 (negative), null. -/
def c3wdf : DataFrame :=
  { cols := ["TCover\nmax"],
    rows := [⟨[("TCover\nmax", .num 101)]⟩,
             ⟨[("TCover\nmax", .num (203 / 2))]⟩,
             ⟨[("TCover\nmax", .num (-1))]⟩,
             ⟨[("TCover\nmax", .null)]⟩] }

/-- Witness for the amended C3 theorem at a concrete input. -/
theorem c3_witness :
    (coverCheck "TCover" [("max", "TCover\nmax")] c3wdf =
      .ok (withQACol c3wdf "QA Check\nrange check\n0-100% +1"
        fun r => coverVerdict "TCover" "max"
          (if "max" = "max" && (([("max", "TCover\nmax")] :
              List (String × String)).lookup "min").isSome then "min" else "max")
          (r.get "TCover\nmax"))) ∧
    coverVerdict "TCover" "max" "max" (.num 101) = .str "✓" ∧
    coverVerdict "TCover" "max" "max" (.num (203 / 2)) = .str "TCover_max > 101%" ∧
    coverVerdict "TCover" "max" "max" (.num (-1)) = .str "TCover_max negative" ∧
    coverVerdict "TCover" "max" "max" .null = .str "TCover_max missing" := by
  have h := c3_cover_range_check c3wdf "TCover" [("max", "TCover\nmax")]
    "TCover\nmax" "max" (by decide) (by decide) (by decide)
  exact ⟨h.1, h.2.1 "max" 101 (by norm_num) (by norm_num),
    h.2.2.1 "max" (203 / 2) (by norm_num),
    h.2.2.2.1 "max" (-1) (by norm_num), h.2.2.2.2 "max"⟩

/-! ## Claim C4 -/

/-- The annotated summary the engine produces for `c4table`/`c4cfg`. -/
def c4out : DataFrame :=
  { cols := ["G", "Count\nsum", "QA Check\nCount_sum\noutliers IQR\n[1.0, 1.0]"],
    rows := [⟨[("G", .str "g1"), ("Count\nsum", .num 1),
               ("QA Check\nCount_sum\noutliers IQR\n[1.0, 1.0]", .str "✓")]⟩,
             ⟨[("G", .str "g2"), ("Count\nsum", .num 1),
               ("QA Check\nCount_sum\noutliers IQR\n[1.0, 1.0]", .str "✓")]⟩,
             ⟨[("G", .str "g3"), ("Count\nsum", .num 1),
               ("QA Check\nCount_sum\noutliers IQR\n[1.0, 1.0]", .str "✓")]⟩,
             ⟨[("G", .str "g4"), ("Count\nsum", .num 1),
               ("QA Check\nCount_sum\noutliers IQR\n[1.0, 1.0]", .str "✓")]⟩,
             ⟨[("G", .str "g5"), ("Count\nsum", .num 100),
               ("QA Check\nCount_sum\noutliers IQR\n[1.0, 1.0]",
                .str "high Count_sum")]⟩] }

/-- Claim C4: in `qa_outliers`, Q1 and Q3 are the 0.25 and 0.75
linear-interpolation quantiles of the column's non-null values over all
rows of the summary, the bounds are `Q1 − 1.5·IQR` and `Q3 + 1.5·IQR`,
and the verdict is `"high {col}_{func}"` above the upper bound,
`"low {col}_{func}"` below the lower bound and a checkmark inside; for
the summary column values `[1,1,1,1,100]` (Q1 = Q3 = 1, bounds [1,1])
the row with 100 is flagged high and the rows with 1 get checkmarks
(final conjunct, running the whole engine). -/
theorem c4_iqr_outliers :
    (∀ (func col : String) (df : DataFrame) (colMap : List (String × String))
       (fm : String) (q1 q3 : ℚ),
       colMap.lookup func = some fm →
       df.cols.contains fm = true →
       linQuantile (1 / 4) ((getColD df fm).filterMap Value.toNum) = some q1 →
       linQuantile (3 / 4) ((getColD df fm).filterMap Value.toNum) = some q3 →
       qa_outliers func col df colMap =
         .ok (withQACol df
           ("QA Check\n" ++ col ++ "_" ++
             (if func = "count" then "records" else func) ++
             "\noutliers IQR\n[" ++
             fmtFixed (if isIntegerCol (getColD df fm) then 1 else 2)
               (q1 - 3 / 2 * (q3 - q1)) ++ ", " ++
             fmtFixed (if isIntegerCol (getColD df fm) then 1 else 2)
               (q3 + 3 / 2 * (q3 - q1)) ++ "]")
           fun r => outlierVerdict (q1 - 3 / 2 * (q3 - q1))
             (q3 + 3 / 2 * (q3 - q1))
             (col ++ "_" ++ (if func = "count" then "records" else func))
             (r.get fm))) ∧
    (∀ (lo hi : ℚ) (label : String) (q : ℚ), hi < q →
      outlierVerdict lo hi label (.num q) = .str ("high " ++ label)) ∧
    (∀ (lo hi : ℚ) (label : String) (q : ℚ), lo ≤ hi → q < lo →
      outlierVerdict lo hi label (.num q) = .str ("low " ++ label)) ∧
    (∀ (lo hi : ℚ) (label : String) (q : ℚ), lo ≤ q → q ≤ hi →
      outlierVerdict lo hi label (.num q) = .str "✓") ∧
    generate_effort_summaries [("T", c4table)] [("s", c4cfg)] =
      .ok ([("T", c4table)], [("s", "T", c4out)]) := by
  refine ⟨?_, ?_, ?_, ?_, by decide⟩
  · intro func col df colMap fm q1 q3 h1 h2 h3 h4
    simp only [qa_outliers, h1, qaOutliersOn, h2, h3, h4, if_true]
  · intro lo hi label q h
    simp only [outlierVerdict]
    rw [if_pos h]
  · intro lo hi label q hlh h
    simp only [outlierVerdict]
    rw [if_neg (by linarith), if_pos h]
  · intro lo hi label q h0 h1
    simp only [outlierVerdict]
    rw [if_neg (by linarith), if_neg (by linarith)]

/-- Witness for the general part of the C4 theorem at a concrete input
(the summary column `Count\nsum` holding [1,1,1,1,100], whose 0.25 and
0.75 quantiles both evaluate to 1). -/
theorem c4_witness :
    qa_outliers "sum" "Count" c4wdf [("sum", "Count\nsum")] =
      .ok (withQACol c4wdf
        ("QA Check\n" ++ "Count" ++ "_" ++
          (if "sum" = "count" then "records" else "sum") ++
          "\noutliers IQR\n[" ++
          fmtFixed (if isIntegerCol (getColD c4wdf "Count\nsum") then 1 else 2)
            ((1 : ℚ) - 3 / 2 * (1 - 1)) ++ ", " ++
          fmtFixed (if isIntegerCol (getColD c4wdf "Count\nsum") then 1 else 2)
            ((1 : ℚ) + 3 / 2 * (1 - 1)) ++ "]")
        fun r => outlierVerdict ((1 : ℚ) - 3 / 2 * (1 - 1))
          ((1 : ℚ) + 3 / 2 * (1 - 1))
          ("Count" ++ "_" ++ (if "sum" = "count" then "records" else "sum"))
          (r.get "Count\nsum")) :=
  c4_iqr_outliers.1 "sum" "Count" c4wdf [("sum", "Count\nsum")] "Count\nsum" 1 1
    (by decide) (by decide) (by decide)
    (by decide)

/-! ## Claim C5 -/

/-- The annotated summary for `c5t1`/`c5cfg` (count values [0,1,1,1,1]). -/
def c5out1 : DataFrame :=
  { cols := ["G", "S\nrecords", "QA Check\nS_records\noutliers IQR\n[1.0, 1.0]"],
    rows := [⟨[("G", .str "g1"), ("S\nrecords", .num 0),
               ("QA Check\nS_records\noutliers IQR\n[1.0, 1.0]",
                .str "low S_records")]⟩,
             ⟨[("G", .str "g2"), ("S\nrecords", .num 1),
               ("QA Check\nS_records\noutliers IQR\n[1.0, 1.0]", .str "✓")]⟩,
             ⟨[("G", .str "g3"), ("S\nrecords", .num 1),
               ("QA Check\nS_records\noutliers IQR\n[1.0, 1.0]", .str "✓")]⟩,
             ⟨[("G", .str "g4"), ("S\nrecords", .num 1),
               ("QA Check\nS_records\noutliers IQR\n[1.0, 1.0]", .str "✓")]⟩,
             ⟨[("G", .str "g5"), ("S\nrecords", .num 1),
               ("QA Check\nS_records\noutliers IQR\n[1.0, 1.0]", .str "✓")]⟩] }

/-- The annotated summary for `c5t2`/`c5cfg` (count values all 0). -/
def c5out2 : DataFrame :=
  { cols := ["G", "S\nrecords", "QA Check\nS_records\noutliers IQR\n[0.0, 0.0]"],
    rows := [⟨[("G", .str "g1"), ("S\nrecords", .num 0),
               ("QA Check\nS_records\noutliers IQR\n[0.0, 0.0]", .str "✓")]⟩,
             ⟨[("G", .str "g2"), ("S\nrecords", .num 0),
               ("QA Check\nS_records\noutliers IQR\n[0.0, 0.0]", .str "✓")]⟩,
             ⟨[("G", .str "g3"), ("S\nrecords", .num 0),
               ("QA Check\nS_records\noutliers IQR\n[0.0, 0.0]", .str "✓")]⟩,
             ⟨[("G", .str "g4"), ("S\nrecords", .num 0),
               ("QA Check\nS_records\noutliers IQR\n[0.0, 0.0]", .str "✓")]⟩,
             ⟨[("G", .str "g5"), ("S\nrecords", .num 0),
               ("QA Check\nS_records\noutliers IQR\n[0.0, 0.0]", .str "✓")]⟩] }

/-- Claim C5 counterexample: no "no data" verdict exists.  In the first
run a count column holds [0,1,1,1,1]: the zero row is classified by the
IQR bounds as "low S_records", not "no data".  In the second run the
count column is all zeros: every row (all zero) gets a checkmark, again
not "no data". -/
theorem c5_counterexample :
    generate_effort_summaries [("T", c5t1)] [("s", c5cfg)] =
      .ok ([("T", c5t1)], [("s", "T", c5out1)]) ∧
    generate_effort_summaries [("T", c5t2)] [("s", c5cfg)] =
      .ok ([("T", c5t2)], [("s", "T", c5out2)]) := by
  refine ⟨by decide, by decide⟩

/-- Claim C5 as amended: the IQR outlier check has no "no data"
verdict.  A null value matches none of the masks and keeps the empty
verdict (first conjunct), and a zero value — in count columns as in any
other — is classified against the bounds like any other number:
checkmark inside them, low below the lower bound, high above the upper
bound (remaining conjuncts). -/
theorem c5_no_data_absent :
    (∀ (lo hi : ℚ) (label : String),
      outlierVerdict lo hi label .null = .str "") ∧
    (∀ (lo hi : ℚ) (label : String), lo ≤ 0 → (0 : ℚ) ≤ hi →
      outlierVerdict lo hi label (.num 0) = .str "✓") ∧
    (∀ (lo hi : ℚ) (label : String), (0 : ℚ) < lo → (0 : ℚ) ≤ hi →
      outlierVerdict lo hi label (.num 0) = .str ("low " ++ label)) ∧
    (∀ (lo hi : ℚ) (label : String), hi < 0 →
      outlierVerdict lo hi label (.num 0) = .str ("high " ++ label)) := by
  refine ⟨fun lo hi label => rfl, ?_, ?_, ?_⟩
  · intro lo hi label h0 h1
    simp only [outlierVerdict]
    rw [if_neg (by linarith), if_neg (by linarith)]
  · intro lo hi label h0 h1
    simp only [outlierVerdict]
    rw [if_neg (by linarith), if_pos h0]
  · intro lo hi label h
    simp only [outlierVerdict]
    rw [if_pos h]

/-- Witness for the amended C5 theorem at concrete bounds. -/
theorem c5_witness :
    outlierVerdict (-1) 1 "S_records" .null = .str "" ∧
    outlierVerdict (-1) 1 "S_records" (.num 0) = .str "✓" ∧
    outlierVerdict (1 / 2) 1 "S_records" (.num 0) = .str "low S_records" ∧
    outlierVerdict (-2) (-1) "S_records" (.num 0) = .str "high S_records" :=
  ⟨c5_no_data_absent.1 (-1) 1 "S_records",
   c5_no_data_absent.2.1 (-1) 1 "S_records" (by norm_num) (by norm_num),
   c5_no_data_absent.2.2.1 (1 / 2) 1 "S_records" (by norm_num) (by norm_num),
   c5_no_data_absent.2.2.2 (-2) (-1) "S_records" (by norm_num)⟩

/-! ## Claim C6 -/

/-- The annotated summary for `c6t`/`c6cfg`: max and min of a date
column 20 days apart, with NO QA column of any kind in the output. -/
def c6out : DataFrame :=
  { cols := ["G", "SampleDate\nmin", "SampleDate\nmax"],
    rows := [⟨[("G", .str "a"), ("SampleDate\nmin", .date 0),
               ("SampleDate\nmax", .date 20)]⟩] }

/-- Claim C6 counterexample: a summary with a max aggregation of a
date-typed column and its paired sibling min column present, whose
duration (20 days) exceeds the claimed 7-day threshold, produces a
summary whose columns are exactly the group column and the two date
aggregates — no date-range QA column exists and no "long survey"
verdict is ever written. -/
theorem c6_counterexample :
    generate_effort_summaries [("T", c6t)] [("s", c6cfg)] =
      .ok ([("T", c6t)], [("s", "T", c6out)]) := by decide

/-- The annotated summary for `c6t2`/`c6cfg2`. -/
def c6out2 : DataFrame :=
  { cols := ["G", "SampleDate\nrecords", "SampleDate\nnunique",
             "SampleDate\nmin", "SampleDate\nmax",
             "QA Check\nequality\nunique = count",
             "QA Check\nSampleDate_records\noutliers IQR\n[0.5, 2.5]",
             "QA Check\nSampleDate_nunique\noutliers IQR\n[0.5, 2.5]"],
    rows := [⟨[("G", .str "a"), ("SampleDate\nrecords", .num 2),
               ("SampleDate\nnunique", .num 2), ("SampleDate\nmin", .date 0),
               ("SampleDate\nmax", .date 20),
               ("QA Check\nequality\nunique = count", .str "✓"),
               ("QA Check\nSampleDate_records\noutliers IQR\n[0.5, 2.5]", .str "✓"),
               ("QA Check\nSampleDate_nunique\noutliers IQR\n[0.5, 2.5]", .str "✓")]⟩,
             ⟨[("G", .str "b"), ("SampleDate\nrecords", .num 1),
               ("SampleDate\nnunique", .num 1), ("SampleDate\nmin", .date 5),
               ("SampleDate\nmax", .date 5),
               ("QA Check\nequality\nunique = count", .str "✓"),
               ("QA Check\nSampleDate_records\noutliers IQR\n[0.5, 2.5]", .str "✓"),
               ("QA Check\nSampleDate_nunique\noutliers IQR\n[0.5, 2.5]", .str "✓")]⟩] }

/-- Claim C6 as amended: no date-range check exists.  The only
date-specific behaviour is that a column whose name contains "Date"
gets the IQR outlier check applied to its count and nunique
aggregations when present; min/max date aggregates are carried through
without any QA column of their own (the max>0 check skips them because
a datetime column is not numeric), and no "long survey" verdict occurs
anywhere. -/
theorem c6_date_checks :
    generate_effort_summaries [("T", c6t2)] [("s", c6cfg2)] =
      .ok ([("T", c6t2)], [("s", "T", c6out2)]) := by decide

/-! ## Claim C8 -/

/-- B enriched with A over key k. -/
def c8Bjoined : DataFrame :=
  { cols := ["k", "k2", "bcol", "acol"],
    rows := [⟨[("k", .num 1), ("k2", .num 2), ("bcol", .num 20),
               ("acol", .num 10)]⟩] }

/-- C enriched with the A-enriched B over key k2: it carries A's
column. -/
def c8Cjoined : DataFrame :=
  { cols := ["k2", "ccol", "k", "bcol", "acol"],
    rows := [⟨[("k2", .num 2), ("ccol", .num 30), ("k", .num 1),
               ("bcol", .num 20), ("acol", .num 10)]⟩] }

/-- Claim C8: the joiner prefers the already-joined version of each
side, and its output mapping contains every original table name.  First
conjunct: every table of the input mapping is present in the output,
for all inputs.  Second conjunct: on the chain `{B: join A}` then
`{C: join B}`, the output maps B to the A-enriched B and C to the join
against that enriched B, with A kept unchanged.  Third conjunct: every
column of A is present in C's joined result. -/
theorem c8_join_chaining :
    (∀ (dfs : TableMap) (joins : List (String × JoinSpec)) (n : String),
        (dfs.lookup n).isSome = true →
        ((join_tables_generic dfs joins).lookup n).isSome = true) ∧
    join_tables_generic c8dfs c8joins =
      [("B", c8Bjoined), ("C", c8Cjoined), ("A", c8A)] ∧
    (∀ c ∈ c8A.cols, c ∈ c8Cjoined.cols) := by
  refine ⟨?_, by decide, by decide⟩
  intro dfs joins n h
  simp only [join_tables_generic]
  cases hj : (joinPass dfs joins).lookup n with
  | some df =>
    rw [lookup_append_of_isSome _ _ _ (by rw [hj]; rfl), hj]
    rfl
  | none =>
    rw [lookup_append_of_none _ _ _ hj,
      lookup_filter_key dfs (fun k => ((joinPass dfs joins).lookup k).isNone) n
        (by simp [hj])]
    exact h

/-- Witness for the general part of the C8 theorem: table A survives
into the joiner's output on the concrete chain. -/
theorem c8_witness :
    ((join_tables_generic c8dfs c8joins).lookup "A").isSome = true :=
  c8_join_chaining.1 c8dfs c8joins "A" (by decide)

/-! ## Claim C9 -/

/-- What table T looks like after the run: the group-by null filled with
the placeholder and the derived sum column appended — in the input
mapping itself. -/
def c9m : DataFrame :=
  { cols := ["G", "a", "b", "ab"],
    rows := [⟨[("G", .str "Missing"), ("a", .num 1), ("b", .num 2),
               ("ab", .num 3)]⟩] }

def c9sdf : DataFrame :=
  { cols := ["G", "a\nrecords", "QA Check\na_records\noutliers IQR\n[1.0, 1.0]"],
    rows := [⟨[("G", .str "Missing"), ("a\nrecords", .num 1),
               ("QA Check\na_records\noutliers IQR\n[1.0, 1.0]", .str "✓")]⟩] }

/-- Claim C9 counterexample: after one summarization pass over a
filterless SummaryDef, the input mapping's table T has been mutated —
its group-by null now holds the placeholder "Missing" and the derived
sum column "ab" has been added — so Tables are not read-only inputs. -/
theorem c9_counterexample :
    generate_effort_summaries [("T", c9table)] [("s", c9cfg)] =
      .ok ([("T", c9m)], [("s", "T", c9sdf)]) ∧ c9m ≠ c9table := by
  refine ⟨by decide, by decide⟩

/-- Claim C9 as amended: for a SummaryDef without a filter, the engine
mutates the input table in place — the table stored in the mapping
afterwards is exactly the input table with group-by nulls filled by the
placeholder and the derived sum column added (the pandas column
assignments of lines 440 and 444 write through the shared frame). -/
theorem c9_input_mutation :
    ∀ (dfs : TableMap) (cfg : SummaryConfig) (table : DataFrame)
      (dfs2 : TableMap) (sdf : DataFrame),
      cfg.filter = none →
      processSummary dfs cfg table = .ok (dfs2, sdf) →
      ∃ df1 df2, fillnaGroup table cfg.group_by = .ok df1 ∧
        addSumCol df1 cfg = .ok df2 ∧
        dfs2 = replaceTable dfs cfg.table df2 := by
  intro dfs cfg table dfs2 sdf hf hp
  simp only [processSummary, hf] at hp
  cases h1 : fillnaGroup table cfg.group_by with
  | error e => simp only [h1] at hp; exact absurd hp (by simp)
  | ok df1 =>
    simp only [h1] at hp
    cases h2 : addSumCol df1 cfg with
    | error e => simp only [h2] at hp; exact absurd hp (by simp)
    | ok df2 =>
      simp only [h2] at hp
      refine ⟨df1, df2, rfl, h2, ?_⟩
      simp only [Bool.false_eq_true, if_false] at hp
      split at hp
      · exact absurd hp (by simp)
      · split at hp
        · exact absurd hp (by simp)
        · split at hp
          · exact absurd hp (by simp)
          · rw [Except.ok.injEq, Prod.mk.injEq] at hp
            exact hp.1.symm

/-- Witness for the amended C9 theorem at the concrete input of the
counterexample run. -/
theorem c9_witness :
    ∃ df1 df2, fillnaGroup c9table c9cfg.group_by = .ok df1 ∧
      addSumCol df1 c9cfg = .ok df2 ∧
      [("T", c9m)] = replaceTable [("T", c9table)] c9cfg.table df2 :=
  c9_input_mutation [("T", c9table)] c9cfg c9table [("T", c9m)] c9sdf
    rfl (by decide)

/-! ## Claim C10 -/

def c10outa : DataFrame :=
  { cols := ["G", "Acover\nmax", "Bcover\nmax",
             "QA Check\nrange check\n0-100% +1"],
    rows := [⟨[("G", .str "g"), ("Acover\nmax", .num 102),
               ("Bcover\nmax", .num 50),
               ("QA Check\nrange check\n0-100% +1", .str "✓")]⟩] }

def c10outb : DataFrame :=
  { cols := ["G", "P\nrecords", "P\nnunique", "Q\nrecords", "Q\nnunique",
             "QA Check\nequality\nunique = count",
             "QA Check\nP_records\noutliers IQR\n[2.0, 2.0]",
             "QA Check\nQ_records\noutliers IQR\n[2.0, 2.0]"],
    rows := [⟨[("G", .str "g"), ("P\nrecords", .num 2), ("P\nnunique", .num 1),
               ("Q\nrecords", .num 2), ("Q\nnunique", .num 2),
               ("QA Check\nequality\nunique = count", .str "✓"),
               ("QA Check\nP_records\noutliers IQR\n[2.0, 2.0]", .str "✓"),
               ("QA Check\nQ_records\noutliers IQR\n[2.0, 2.0]", .str "✓")]⟩] }

def c10outc : DataFrame :=
  { cols := ["G", "M\nmax", "N\nmax", "QA Check\nmax > 0"],
    rows := [⟨[("G", .str "g"), ("M\nmax", .num 0), ("N\nmax", .num 5),
               ("QA Check\nmax > 0", .str "✓")]⟩] }

/-- Claim C10: the range, equality and max>0 checks each write to one
fixed column name that does not embed the source column, so a later
column's verdicts overwrite an earlier column's.  Run 1: Acover (value
102, verdict "Acover_max > 101%") then Bcover (value 50, checkmark)
both write "QA Check\nrange check\n0-100% +1"; the output holds one
such column with only Bcover's checkmark — Acover's flag is gone.
Run 2: P (count 2, nunique 1, "mismatched") then Q (count 2, nunique 2,
checkmark) both write "QA Check\nequality\nunique = count"; only Q's
checkmark survives.  Run 3: M (max 0, "M\nmax is 0") then N (max 5,
checkmark) both write "QA Check\nmax > 0"; only N's checkmark
survives. -/
theorem c10_fixed_qa_columns :
    generate_effort_summaries [("T", c10ta)] [("s", c10cfga)] =
      .ok ([("T", c10ta)], [("s", "T", c10outa)]) ∧
    generate_effort_summaries [("T", c10tb)] [("s", c10cfgb)] =
      .ok ([("T", c10tb)], [("s", "T", c10outb)]) ∧
    generate_effort_summaries [("T", c10tc)] [("s", c10cfgc)] =
      .ok ([("T", c10tc)], [("s", "T", c10outc)]) := by
  refine ⟨by decide, by decide, by decide⟩

end QAReport
